import Mathlib

/-!
# Verification of the `cart-upsells` widget (src/assets/cart-upsells.js)

A shallow embedding of the `CartUpsells` custom element: its dataset
parameters, per-instance cache, single in-flight fetch handle, and the
render pipeline (cart-id collection, filtering, capping, carousel
assembly).  Asynchronous fetches are modelled by an event interpreter:
a `connected` event runs `connectedCallback` (and the synchronous prefix
of `#loadRecommendations` up to the `await`), and a `resolve` event runs
the continuation of a pending fetch with a given network outcome, where
an aborted fetch resolves as an `AbortError` (caught and ignored, then
the `finally` block runs).
-/

/-- One recommended product: `{ id, html }` as built at
`cart-upsells.js:71-78` (`id` is `undefined` when extraction fails). -/
structure Product where
  id : Option String
  html : String
deriving DecidableEq, Repr

/-- One `<slideshow-slide>`: `aria-hidden` is `"true"` exactly when the
slide's index is ≥ 3 (`cart-upsells.js:143`). -/
structure Slide where
  ariaHidden : Bool
  html : String
deriving DecidableEq, Repr

/-- The assembled carousel structure: arrows present iff
`slideCount > 3` (`cart-upsells.js:155-156,179-184`), plus the slides. -/
structure Carousel where
  hasArrows : Bool
  slides : List Slide
deriving DecidableEq, Repr

/-- A parsed `.resource-card` element from the response document:
the `href`s of its anchors in document order, and its `outerHTML`. -/
structure Card where
  links : List String
  outerHTML : String
deriving DecidableEq, Repr

/-- The widget's `data-*` attributes as read at `cart-upsells.js:22`
(`none` models an absent attribute).  `maxProducts` is modelled
post-`parseInt` as an optional natural number. -/
structure Dataset where
  productId : Option String
  url : Option String
  maxProducts : Option Nat
  sectionId : Option String
deriving DecidableEq, Repr

/-- The surrounding page: presence of the loading / content elements
inside the widget, and the `data-product-id` values of the elements
matched by the two cart queries (`cart-upsells.js:110,116`), `none`
modelling an element with the attribute absent. -/
structure Env where
  loadingElPresent : Bool
  contentElPresent : Bool
  cartTableIds : List (Option String)
  productCardIds : List (Option String)
deriving DecidableEq, Repr

/-- A fetch that has been started but whose continuation has not yet
run: its cache key and whether its `AbortController` has been aborted. -/
structure PendingFetch where
  key : String
  aborted : Bool
deriving DecidableEq, Repr

/-- Outcome of a (non-aborted) network fetch: a response with its `ok`
flag and the `.resource-card` elements parsed from its body, or a
network-level rejection. -/
inductive NetOutcome where
  | http (ok : Bool) (cards : List Card)
  | netError
deriving DecidableEq, Repr

/-- The widget instance's observable state: current dataset, `hidden`
attribute, `#cachedRecommendations`, `#activeFetch` (by fetch id),
pending fetches, the `hidden` flags of the loading / content elements,
the children of the content region, and the log of network requests
issued (fetch id, url). -/
structure WidgetState where
  dataset : Dataset
  hidden : Bool
  cache : List (String × List Product)
  activeFetch : Option Nat
  nextId : Nat
  pending : List (Nat × PendingFetch)
  loadingHidden : Bool
  contentHidden : Bool
  contentChildren : List Carousel
  requestLog : List (Nat × String)
deriving DecidableEq, Repr

/-- JavaScript truthiness of an optional string attribute:
`undefined` and `""` are falsy. -/
def optTruthy : Option String → Bool
  | none => false
  | some s => s != ""

/-- `sectionId || 'cart-upsells'` (`cart-upsells.js:30`). -/
def sectionIdOrDefault : Option String → String
  | none => "cart-upsells"
  | some s => if s = "" then "cart-upsells" else s

/-- The fetch url / cache key
`` `${url}&product_id=${productId}&section_id=${sectionId || 'cart-upsells'}&intent=complementary` ``
(`cart-upsells.js:29-31`). -/
def fetchUrlOf (ds : Dataset) : String :=
  ds.url.getD "" ++ "&product_id=" ++ ds.productId.getD "" ++ "&section_id="
    ++ sectionIdOrDefault ds.sectionId ++ "&intent=complementary"

/-- Characters of a `[^/?]+` run: take until `/` or `?`. -/
def takeIdChars : List Char → List Char
  | [] => []
  | c :: cs => if c = '/' || c = '?' then [] else c :: takeIdChars cs

/-- Leftmost match of the regex `\/products\/([^/?]+)` over a character
list: the first position where `/products/` occurs followed by at least
one non-`/`, non-`?` character; returns the capture group. -/
def findProductId : List Char → Option String
  | [] => none
  | c :: cs =>
    if ("/products/").data.isPrefixOf (c :: cs) then
      let idc := takeIdChars ((c :: cs).drop 10)
      if idc.isEmpty then findProductId cs else some (String.mk idc)
    else findProductId cs

/-- `href.match(/\/products\/([^/?]+)/)?.[1]` (`cart-upsells.js:73`). -/
def extractProductId (href : String) : Option String :=
  findProductId href.data

/-- Substring containment test (for the `a[href*="/products/"]`
selector). -/
def hasSub (needle : List Char) : List Char → Bool
  | [] => needle.isEmpty
  | c :: t => needle.isPrefixOf (c :: t) || hasSub needle t

/-- Map one `.resource-card` to a `Product`
(`cart-upsells.js:71-78`): find the first anchor whose href contains
`/products/`, extract the id from it (possibly failing), keep the
card's full markup. -/
def cardToProduct (c : Card) : Product :=
  match c.links.find? (fun h => hasSub ("/products/").data h.data) with
  | none => { id := none, html := c.outerHTML }
  | some h => { id := extractProductId h, html := c.outerHTML }

/-- Fold of `if (id) cartItemIds.add(id.toString())` over a query
result (`cart-upsells.js:110-113,116-119`): skip absent and empty
ids. -/
def addCartIds (acc : List String) : List (Option String) → List String
  | [] => acc
  | none :: t => addCartIds acc t
  | some id :: t => if id = "" then addCartIds acc t else addCartIds (acc ++ [id]) t

/-- The `cartItemIds` set, collected from both page queries
(`cart-upsells.js:109-119`); membership is what matters. -/
def collectCartIds (cartTableIds productCardIds : List (Option String)) : List String :=
  addCartIds (addCartIds [] cartTableIds) productCardIds

/-- The filter predicate of `cart-upsells.js:121-125`:
`if (!product.id) return true; return !cartItemIds.has(product.id)` —
note `!product.id` is also true for an empty-string id. -/
def keepProduct (cartItemIds : List String) (p : Product) : Bool :=
  match p.id with
  | none => true
  | some s => if s = "" then true else !(cartItemIds.contains s)

/-- The spec's wording of the filter: keep iff the id is absent or not
a member of the cart-id set. -/
def keepSpec (cartItemIds : List String) (p : Product) : Bool :=
  match p.id with
  | none => true
  | some s => !(cartItemIds.contains s)

/-- `parseInt(this.dataset.maxProducts || 9)` (`cart-upsells.js:133`),
restricted to absent-or-natural attribute values. -/
def effectiveMaxProducts : Option Nat → Nat
  | none => 9
  | some n => n

/-- Slide construction from index `i` on: one `<slideshow-slide>` per
product, `aria-hidden` true from index 3 (`cart-upsells.js:138-153`). -/
def mkSlidesFrom (i : Nat) : List Product → List Slide
  | [] => []
  | p :: ps => { ariaHidden := decide (i ≥ 3), html := p.html } :: mkSlidesFrom (i + 1) ps

/-- All slides for a product list (map with index starting at 0). -/
def mkSlides (ps : List Product) : List Slide :=
  mkSlidesFrom 0 ps

/-- The carousel built from the products to show: arrows iff more than
three slides (`cart-upsells.js:155-156,179-184`). -/
def assembleCarousel (ps : List Product) : Carousel :=
  { hasArrows := decide (ps.length > 3), slides := mkSlides ps }

/-- `#renderProducts(products)` (`cart-upsells.js:99-205`): hide on
empty input; bail out if the content region is missing; collect cart
ids, filter, hide if nothing survives; cap at `maxProducts`; append the
assembled carousel to the content region and unhide it. -/
def renderProducts (env : Env) (products : List Product) (s : WidgetState) : WidgetState :=
  if products.isEmpty then { s with hidden := true }
  else if !env.contentElPresent then s
  else
    let cartItemIds := collectCartIds env.cartTableIds env.productCardIds
    let filtered := products.filter (keepProduct cartItemIds)
    if filtered.isEmpty then { s with hidden := true }
    else
      let maxP := effectiveMaxProducts s.dataset.maxProducts
      let toShow := filtered.take maxP
      { s with
        contentChildren := s.contentChildren ++ [assembleCarousel toShow],
        contentHidden := false }

/-- Mark the pending fetch with id `fid` as aborted (`abort()` on its
controller); a fetch that already resolved is no longer pending and the
call is a no-op. -/
def markAborted (fid : Nat) (pend : List (Nat × PendingFetch)) : List (Nat × PendingFetch) :=
  pend.map (fun e => if e.1 = fid then (e.1, { e.2 with aborted := true }) else e)

/-- `this.#activeFetch?.abort()` (`cart-upsells.js:46`). -/
def abortActive (s : WidgetState) : WidgetState :=
  match s.activeFetch with
  | none => s
  | some fid => { s with pending := markAborted fid s.pending }

/-- The synchronous prefix of `#loadRecommendations`
(`cart-upsells.js:21-52`): missing `productId`/`url` hides the widget;
a cache hit renders immediately (no loading state, no fetch); otherwise
show the loading state, abort any active fetch, allocate a new
controller and issue the request. -/
def loadStart (env : Env) (s : WidgetState) : WidgetState :=
  if !(optTruthy s.dataset.productId) || !(optTruthy s.dataset.url) then
    { s with hidden := true }
  else
    let key := fetchUrlOf s.dataset
    match List.lookup key s.cache with
    | some cached => renderProducts env cached s
    | none =>
      let s1 := { s with
        loadingHidden := if env.loadingElPresent then false else s.loadingHidden,
        contentHidden := if env.contentElPresent then true else s.contentHidden }
      let s2 := abortActive s1
      let fid := s2.nextId
      { s2 with
        activeFetch := some fid,
        nextId := fid + 1,
        pending := s2.pending ++ [(fid, { key := key, aborted := false })],
        requestLog := s2.requestLog ++ [(fid, key)] }

/-- `connectedCallback` (`cart-upsells.js:9-16`): return (without
touching anything) when the `hidden` attribute is set or `productId`
is missing; otherwise start loading. -/
def connectedCallback (env : Env) (s : WidgetState) : WidgetState :=
  if s.hidden || !(optTruthy s.dataset.productId) then s
  else loadStart env s

/-- The continuation of a pending fetch (`cart-upsells.js:49-93`).  If
the fetch was aborted its promise rejects with `AbortError`, which the
`catch` ignores; a network rejection or a non-`ok` response hides the
widget; a successful response with zero `.resource-card`s hides the
widget (before any cache write); otherwise the parsed products are
cached under the fetch's key and rendered.  In every case the `finally`
block then clears `#activeFetch` and hides the loading element. -/
def resolveFetch (env : Env) (fid : Nat) (out : NetOutcome) (s : WidgetState) : WidgetState :=
  match List.lookup fid s.pending with
  | none => s
  | some pf =>
    let s0 := { s with pending := s.pending.filter (fun e => e.1 != fid) }
    let s1 :=
      if pf.aborted then s0
      else
        match out with
        | .netError => { s0 with hidden := true }
        | .http ok cards =>
          if !ok then { s0 with hidden := true }
          else if cards.isEmpty then { s0 with hidden := true }
          else
            let products := cards.map cardToProduct
            let s' := { s0 with cache := (pf.key, products) :: s0.cache }
            renderProducts env products s'
    { s1 with
      activeFetch := none,
      loadingHidden := if env.loadingElPresent then true else s1.loadingHidden }

/-- A step of the widget's event loop: (re)attachment with a current
dataset, or resolution of a pending fetch. -/
inductive Event where
  | connected (ds : Dataset)
  | resolve (fid : Nat) (out : NetOutcome)
deriving DecidableEq, Repr

/-- Interpret one event. -/
def step (env : Env) (s : WidgetState) : Event → WidgetState
  | .connected ds => connectedCallback env { s with dataset := ds }
  | .resolve fid out => resolveFetch env fid out s

/-- Interpret a list of events in order. -/
def run (env : Env) (s : WidgetState) (evs : List Event) : WidgetState :=
  evs.foldl (step env) s

/-- A freshly constructed widget instance with dataset `ds`: empty
cache, no active or pending fetch, not hidden, loading element hidden,
content region hidden and empty, no requests issued. -/
def initState (ds : Dataset) : WidgetState :=
  { dataset := ds, hidden := false, cache := [], activeFetch := none, nextId := 0,
    pending := [], loadingHidden := true, contentHidden := true, contentChildren := [],
    requestLog := [] }

/-- Number of network requests issued so far whose url is `k`. -/
def countRequests (k : String) (s : WidgetState) : Nat :=
  (s.requestLog.filter (fun e => e.2 == k)).length

/-! ## Helper lemmas -/

lemma mem_addCartIds_of_ne (x : String) :
    ∀ (l : List (Option String)) (acc : List String), x ∈ addCartIds acc l → x ∈ acc ∨ x ≠ "" := by
  intro l
  induction l with
  | nil => intro acc h; exact Or.inl h
  | cons o t ih =>
    intro acc h
    match o with
    | none => exact ih acc h
    | some id =>
      by_cases hid : id = ""
      · simp only [addCartIds, hid, if_pos rfl] at h
        exact ih acc h
      · simp only [addCartIds, if_neg hid] at h
        rcases ih (acc ++ [id]) h with hmem | hne
        · rcases List.mem_append.1 hmem with h1 | h1
          · exact Or.inl h1
          · right
            simp only [List.mem_singleton] at h1
            exact h1 ▸ hid
        · exact Or.inr hne

/-- The collected cart-id set never contains the empty string, because
`if (id)` skips falsy ids. -/
lemma empty_not_mem_collectCartIds (a b : List (Option String)) :
    "" ∉ collectCartIds a b := by
  intro h
  rcases mem_addCartIds_of_ne "" b (addCartIds [] a) h with h1 | h1
  · rcases mem_addCartIds_of_ne "" a [] h1 with h2 | h2
    · simp at h2
    · exact h2 rfl
  · exact h1 rfl

/-- On any cart-id set that the widget actually collects, the code's
truthiness-based keep test agrees with the spec's absent-or-not-member
test. -/
lemma keepProduct_eq_keepSpec (S : List String) (hS : "" ∉ S) (p : Product) :
    keepProduct S p = keepSpec S p := by
  unfold keepProduct keepSpec
  match p with
  | ⟨none, h⟩ => rfl
  | ⟨some s, h⟩ =>
    by_cases hs : s = ""
    · subst hs
      simp [hS]
    · simp [hs]

lemma mkSlidesFrom_length (i : Nat) (ps : List Product) :
    (mkSlidesFrom i ps).length = ps.length := by
  induction ps generalizing i with
  | nil => rfl
  | cons p t ih => simp [mkSlidesFrom, ih]

lemma mkSlidesFrom_getElem? (ps : List Product) :
    ∀ (i j : Nat),
      (mkSlidesFrom i ps)[j]? =
        (ps[j]?).map (fun p => { ariaHidden := decide (3 ≤ i + j), html := p.html }) := by
  induction ps with
  | nil => intro i j; simp [mkSlidesFrom]
  | cons p t ih =>
    intro i j
    match j with
    | 0 => simp [mkSlidesFrom, ge_iff_le]
    | j + 1 =>
      simp only [mkSlidesFrom, List.getElem?_cons_succ, ih (i + 1) j]
      have : i + 1 + j = i + (j + 1) := by omega
      rw [this]

lemma mkSlides_ariaHidden (ps : List Product) (i : Nat) (h : i < (mkSlides ps).length) :
    ((mkSlides ps).get ⟨i, h⟩).ariaHidden = decide (3 ≤ i) := by
  have h2 : i < ps.length := by
    simpa [mkSlides, mkSlidesFrom_length] using h
  have e1 : (mkSlides ps)[i]? = some ((mkSlides ps).get ⟨i, h⟩) := by
    rw [List.get_eq_getElem]
    exact List.getElem?_eq_getElem h
  have e2 : (mkSlides ps)[i]? =
      some { ariaHidden := decide (3 ≤ i), html := ps[i].html } := by
    rw [mkSlides, mkSlidesFrom_getElem?, List.getElem?_eq_getElem h2]
    simp
  rw [e1] at e2
  rw [Option.some.injEq] at e2
  rw [e2]

/-- `#renderProducts` on an empty sequence only hides the widget. -/
lemma renderProducts_nil (env : Env) (s : WidgetState) :
    renderProducts env [] s = { s with hidden := true } := by
  rfl

/-- `#renderProducts` with the content region missing is a no-op on a
non-empty sequence. -/
lemma renderProducts_noContent (env : Env) (products : List Product) (s : WidgetState)
    (hc : env.contentElPresent = false) (hp : products ≠ []) :
    renderProducts env products s = s := by
  unfold renderProducts
  simp [hc, hp]

/-- `#renderProducts` when the filter leaves nothing only hides the
widget. -/
lemma renderProducts_filteredEmpty (env : Env) (products : List Product) (s : WidgetState)
    (hc : env.contentElPresent = true)
    (hf : products.filter (keepProduct (collectCartIds env.cartTableIds env.productCardIds)) = []) :
    renderProducts env products s = { s with hidden := true } := by
  by_cases hp : products = []
  · subst hp; rfl
  · unfold renderProducts
    simp [hc, hp, hf]

/-- `#renderProducts` when the filter keeps something: the carousel
built from the capped filtered sequence is appended to the content
region and the content region is unhidden; nothing else changes. -/
lemma renderProducts_render (env : Env) (products : List Product) (s : WidgetState)
    (hc : env.contentElPresent = true)
    (hf : products.filter (keepProduct (collectCartIds env.cartTableIds env.productCardIds)) ≠ []) :
    renderProducts env products s =
      { s with
        contentChildren := s.contentChildren ++
          [assembleCarousel
            ((products.filter (keepProduct (collectCartIds env.cartTableIds env.productCardIds))).take
              (effectiveMaxProducts s.dataset.maxProducts))],
        contentHidden := false } := by
  have hp : products ≠ [] := by
    intro h
    subst h
    exact hf rfl
  unfold renderProducts
  simp [hc, hp, hf]

/-- `#renderProducts` never issues a network request: the request log
is untouched on every path. -/
lemma renderProducts_requestLog (env : Env) (P : List Product) (s : WidgetState) :
    (renderProducts env P s).requestLog = s.requestLog := by
  unfold renderProducts
  split
  · rfl
  · split
    · rfl
    · dsimp only
      split
      · rfl
      · rfl

lemma run3 (env : Env) (s : WidgetState) (e1 e2 e3 : Event) :
    run env s [e1, e2, e3] = step env (step env (step env s e1) e2) e3 := rfl

/-- First activation on a fresh instance with both parameters present:
the cache misses, the loading indicator is shown, the content region
is hidden, and fetch 0 is issued. -/
lemma activation_step1 (ds : Dataset) (a b : List (Option String))
    (hp : optTruthy ds.productId = true) (hu : optTruthy ds.url = true) :
    step ⟨true, true, a, b⟩ (initState ds) (.connected ds) =
      { dataset := ds, hidden := false, cache := [], activeFetch := some 0, nextId := 1,
        pending := [(0, { key := fetchUrlOf ds, aborted := false })],
        loadingHidden := false, contentHidden := true, contentChildren := [],
        requestLog := [(0, fetchUrlOf ds)] } := by
  simp [step, connectedCallback, initState, hp, loadStart, hu, abortActive]

/-- Resolution of fetch 0 with a successful, card-bearing response:
the parsed products are cached under the request key and rendered,
then the `finally` block clears the handle and hides the loading
indicator. -/
lemma activation_step2_success (ds : Dataset) (a b : List (Option String))
    (c : Card) (cs : List Card) :
    step ⟨true, true, a, b⟩
      { dataset := ds, hidden := false, cache := [], activeFetch := some 0, nextId := 1,
        pending := [(0, { key := fetchUrlOf ds, aborted := false })],
        loadingHidden := false, contentHidden := true, contentChildren := [],
        requestLog := [(0, fetchUrlOf ds)] }
      (.resolve 0 (.http true (c :: cs))) =
      { renderProducts ⟨true, true, a, b⟩ ((c :: cs).map cardToProduct)
          { dataset := ds, hidden := false,
            cache := [(fetchUrlOf ds, (c :: cs).map cardToProduct)],
            activeFetch := some 0, nextId := 1, pending := [],
            loadingHidden := false, contentHidden := true, contentChildren := [],
            requestLog := [(0, fetchUrlOf ds)] } with
        activeFetch := none, loadingHidden := true } := by
  simp [step, resolveFetch]

/-- Sequential re-activation issues no second request: whatever the
first fetch's outcome, the trace activate–resolve–activate logs
exactly one request for the key. -/
lemma cacheIdem_requests_aux (ds : Dataset) (a b : List (Option String))
    (hp : optTruthy ds.productId = true) (hu : optTruthy ds.url = true) (out : NetOutcome) :
    countRequests (fetchUrlOf ds)
      (run ⟨true, true, a, b⟩ (initState ds) [.connected ds, .resolve 0 out, .connected ds]) = 1 := by
  rw [run3, activation_step1 ds a b hp hu]
  cases out with
  | netError =>
    simp [step, resolveFetch, connectedCallback, countRequests]
  | http ok cards =>
    cases ok with
    | false =>
      simp [step, resolveFetch, connectedCallback, countRequests]
    | true =>
      cases cards with
      | nil =>
        simp [step, resolveFetch, connectedCallback, countRequests]
      | cons c cs =>
        rw [activation_step2_success ds a b c cs]
        by_cases hf : ((c :: cs).map cardToProduct).filter
            (keepProduct (collectCartIds a b)) = []
        · rw [renderProducts_filteredEmpty _ _ _ rfl hf]
          simp [step, connectedCallback, countRequests]
        · rw [renderProducts_render _ _ _ rfl hf]
          simp [step, connectedCallback, loadStart, hp, hu, countRequests,
            renderProducts_requestLog]

/-- Sequential re-activation after a successful fetch is served from
the cache and renders the same sequence again. -/
lemma cacheIdem_render_aux (ds : Dataset) (a b : List (Option String))
    (hp : optTruthy ds.productId = true) (hu : optTruthy ds.url = true)
    (c : Card) (cs : List Card)
    (hf : ((c :: cs).map cardToProduct).filter (keepProduct (collectCartIds a b)) ≠ []) :
    List.lookup (fetchUrlOf ds)
      (run ⟨true, true, a, b⟩ (initState ds)
        [.connected ds, .resolve 0 (.http true (c :: cs)), .connected ds]).cache =
      some ((c :: cs).map cardToProduct) ∧
    (run ⟨true, true, a, b⟩ (initState ds)
        [.connected ds, .resolve 0 (.http true (c :: cs)), .connected ds]).contentChildren =
      [assembleCarousel ((((c :: cs).map cardToProduct).filter
          (keepProduct (collectCartIds a b))).take (effectiveMaxProducts ds.maxProducts)),
       assembleCarousel ((((c :: cs).map cardToProduct).filter
          (keepProduct (collectCartIds a b))).take (effectiveMaxProducts ds.maxProducts))] := by
  rw [run3, activation_step1 ds a b hp hu, activation_step2_success ds a b c cs,
    renderProducts_render _ _ _ rfl hf]
  simp [step, connectedCallback, loadStart, hp, hu]
  have hf2 : (cardToProduct c :: List.map cardToProduct cs).filter
      (keepProduct (collectCartIds a b)) ≠ [] := by simpa using hf
  rw [renderProducts_render ⟨true, true, a, b⟩ (cardToProduct c :: List.map cardToProduct cs)
    _ rfl hf2]
  simp

/-! ## Concrete fixtures for counterexamples and witnesses -/

/-- A dataset with both required attributes present and no optional
ones. -/
def dsW : Dataset := { productId := some "1", url := some "u", maxProducts := none, sectionId := none }

/-- Same dataset but with `data-max-products="0"`. -/
def dsZero : Dataset := { productId := some "1", url := some "u", maxProducts := some 0, sectionId := none }

/-- A dataset with `data-product-id` absent. -/
def dsNoId : Dataset := { productId := none, url := some "u", maxProducts := none, sectionId := none }

/-- A dataset with `data-url` absent. -/
def dsNoUrl : Dataset := { productId := some "1", url := none, maxProducts := none, sectionId := none }

/-- A page with both widget sub-elements present and an empty cart. -/
def envW : Env := { loadingElPresent := true, contentElPresent := true, cartTableIds := [], productCardIds := [] }

/-- The request key derived from `dsW`. -/
def keyW : String := fetchUrlOf dsW

/-- A product kept by every empty-cart filter. -/
def pW : Product := { id := some "a", html := "m" }

/-- A response card linking to product `a`. -/
def cardW : Card := { links := ["/products/a"], outerHTML := "m" }

/-! ## Claims -/

/-- C7: for any input sequence `P` and any cart-id set as collected
from the page, the filter keeps a product iff its id is absent or not a
member of the set (the code's filter equals the spec's filter), the
kept products form a sublist of `P` (stable filter, original relative
order), and every element whose id is `none` is retained. -/
theorem claim7_filter_stability (a b : List (Option String)) (P : List Product) :
    P.filter (keepProduct (collectCartIds a b)) = P.filter (keepSpec (collectCartIds a b)) ∧
    List.Sublist (P.filter (keepProduct (collectCartIds a b))) P ∧
    (∀ p ∈ P, p.id = none → p ∈ P.filter (keepProduct (collectCartIds a b))) := by
  refine ⟨?_, List.filter_sublist P, ?_⟩
  · exact List.filter_congr fun p _ =>
      keepProduct_eq_keepSpec _ (empty_not_mem_collectCartIds a b) p
  · intro p hp hid
    refine List.mem_filter.2 ⟨hp, ?_⟩
    unfold keepProduct
    rw [hid]

theorem claim7_filter_stability_witness :
    (⟨none, "y"⟩ : Product) ∈
      ([⟨some "a", "x"⟩, ⟨none, "y"⟩, ⟨some "c", "z"⟩] : List Product) ∧
    (⟨none, "y"⟩ : Product) ∈
      ([⟨some "a", "x"⟩, ⟨none, "y"⟩, ⟨some "c", "z"⟩] : List Product).filter
        (keepProduct (collectCartIds [some "a", none, some ""] [some "b"])) :=
  ⟨by decide,
    (claim7_filter_stability [some "a", none, some ""] [some "b"]
      [⟨some "a", "x"⟩, ⟨none, "y"⟩, ⟨some "c", "z"⟩]).2.2 ⟨none, "y"⟩ (by decide) rfl⟩

/-- C8: the displayed sequence is the filtered sequence capped at
`effectiveMaxProducts` (9 when the attribute is absent): its length is
exactly `min |kept| maxProducts`, hence never exceeds `maxProducts`,
and the rendered carousel holds exactly that many slides. -/
theorem claim8_cap_enforcement (a b : List (Option String)) (P : List Product) (mp : Option Nat) :
    ((P.filter (keepProduct (collectCartIds a b))).take (effectiveMaxProducts mp)).length =
      min (P.filter (keepProduct (collectCartIds a b))).length (effectiveMaxProducts mp) ∧
    ((P.filter (keepProduct (collectCartIds a b))).take (effectiveMaxProducts mp)).length ≤
      effectiveMaxProducts mp ∧
    effectiveMaxProducts none = 9 ∧
    (∀ (lp : Bool) (s : WidgetState),
      s.dataset.maxProducts = mp →
      P.filter (keepProduct (collectCartIds a b)) ≠ [] →
      (renderProducts ⟨lp, true, a, b⟩ P s).contentChildren =
        s.contentChildren ++
          [assembleCarousel
            ((P.filter (keepProduct (collectCartIds a b))).take (effectiveMaxProducts mp))]) ∧
    (assembleCarousel
        ((P.filter (keepProduct (collectCartIds a b))).take (effectiveMaxProducts mp))).slides.length =
      min (P.filter (keepProduct (collectCartIds a b))).length (effectiveMaxProducts mp) := by
  refine ⟨?_, ?_, rfl, ?_, ?_⟩
  · rw [List.length_take, Nat.min_comm]
  · rw [List.length_take]
    exact Nat.min_le_left _ _
  · intro lp s hmp hf
    rw [renderProducts_render ⟨lp, true, a, b⟩ P s rfl hf, hmp]
  · show (mkSlides _).length = _
    rw [mkSlides, mkSlidesFrom_length, List.length_take, Nat.min_comm]

theorem claim8_cap_enforcement_witness :
    (initState ⟨some "1", some "u", some 2, none⟩).dataset.maxProducts = some 2 ∧
    ([⟨some "a", "x"⟩, ⟨some "b", "y"⟩, ⟨some "c", "z"⟩] : List Product).filter
      (keepProduct (collectCartIds [] [])) ≠ [] ∧
    (renderProducts ⟨true, true, [], []⟩
        [⟨some "a", "x"⟩, ⟨some "b", "y"⟩, ⟨some "c", "z"⟩]
        (initState ⟨some "1", some "u", some 2, none⟩)).contentChildren =
      (initState ⟨some "1", some "u", some 2, none⟩).contentChildren ++
        [assembleCarousel
          ((([⟨some "a", "x"⟩, ⟨some "b", "y"⟩, ⟨some "c", "z"⟩] : List Product).filter
            (keepProduct (collectCartIds [] []))).take (effectiveMaxProducts (some 2)))] :=
  ⟨rfl, by decide,
    (claim8_cap_enforcement [] [] [⟨some "a", "x"⟩, ⟨some "b", "y"⟩, ⟨some "c", "z"⟩]
      (some 2)).2.2.2.1 true (initState ⟨some "1", some "u", some 2, none⟩) rfl (by decide)⟩

/-- C9: the assembled carousel has navigation arrows iff it holds more
than three slides — in particular none at exactly 3 products and some
at 4 — and the slide at index `i` is marked `aria-hidden` exactly when
`i ≥ 3`. -/
theorem claim9_arrow_threshold (ps : List Product) :
    ((assembleCarousel ps).hasArrows = true ↔ 3 < ps.length) ∧
    (ps.length = 3 → (assembleCarousel ps).hasArrows = false) ∧
    (ps.length = 4 → (assembleCarousel ps).hasArrows = true) ∧
    (∀ (i : Nat) (h : i < (assembleCarousel ps).slides.length),
      ((assembleCarousel ps).slides.get ⟨i, h⟩).ariaHidden = decide (3 ≤ i)) := by
  refine ⟨by simp [assembleCarousel], ?_, ?_, ?_⟩
  · intro h3
    simp [assembleCarousel, h3]
  · intro h4
    simp [assembleCarousel, h4]
  · intro i h
    exact mkSlides_ariaHidden ps i h

theorem claim9_arrow_threshold_witness :
    ([(⟨some "a", "1"⟩ : Product), ⟨some "b", "2"⟩, ⟨some "c", "3"⟩, ⟨some "d", "4"⟩] :
        List Product).length = 4 ∧
    (assembleCarousel
      [⟨some "a", "1"⟩, ⟨some "b", "2"⟩, ⟨some "c", "3"⟩, ⟨some "d", "4"⟩]).hasArrows = true ∧
    ((assembleCarousel
        [⟨some "a", "1"⟩, ⟨some "b", "2"⟩, ⟨some "c", "3"⟩,
          ⟨some "d", "4"⟩]).slides.get ⟨3, by decide⟩).ariaHidden = decide (3 ≤ 3) :=
  ⟨rfl,
    (claim9_arrow_threshold
      [⟨some "a", "1"⟩, ⟨some "b", "2"⟩, ⟨some "c", "3"⟩, ⟨some "d", "4"⟩]).2.2.1 rfl,
    (claim9_arrow_threshold
      [⟨some "a", "1"⟩, ⟨some "b", "2"⟩, ⟨some "c", "3"⟩, ⟨some "d", "4"⟩]).2.2.2 3 (by decide)⟩

/-- C10: when the content region element is missing, rendering a
non-empty product sequence is a no-op — the state (DOM, cache, hidden
flag) is exactly unchanged, so the widget is neither rendered nor
hidden by the call. -/
theorem claim10_missing_content_region (env : Env) (products : List Product) (s : WidgetState)
    (hc : env.contentElPresent = false) (hp : products ≠ []) :
    renderProducts env products s = s :=
  renderProducts_noContent env products s hc hp

theorem claim10_missing_content_region_witness :
    (⟨true, false, [], []⟩ : Env).contentElPresent = false ∧
    ([(⟨some "a", "m"⟩ : Product)] : List Product) ≠ [] ∧
    renderProducts ⟨true, false, [], []⟩ [⟨some "a", "m"⟩]
        (initState ⟨some "1", some "u", none, none⟩) =
      initState ⟨some "1", some "u", none, none⟩ :=
  ⟨rfl, by decide,
    claim10_missing_content_region ⟨true, false, [], []⟩ [⟨some "a", "m"⟩]
      (initState ⟨some "1", some "u", none, none⟩) rfl (by decide)⟩

/-- C1 (counterexample): a fetch that was cancelled because a newer
fetch started does mutate the DOM when it resolves.  After two
back-to-back activations the loading indicator is visible and fetch 0
is aborted while fetch 1 is in flight; when the cancelled fetch 0
resolves, its `finally` block hides the loading indicator and clears
the active-fetch handle even though fetch 1 is still pending. -/
theorem claim1_counterexample :
    (run envW (initState dsW) [.connected dsW, .connected dsW]).loadingHidden = false ∧
    List.lookup 0 (run envW (initState dsW) [.connected dsW, .connected dsW]).pending =
      some { key := keyW, aborted := true } ∧
    (run envW (initState dsW)
        [.connected dsW, .connected dsW, .resolve 0 .netError]).loadingHidden = true ∧
    (run envW (initState dsW)
        [.connected dsW, .connected dsW, .resolve 0 .netError]).activeFetch = none ∧
    List.lookup 1 (run envW (initState dsW)
        [.connected dsW, .connected dsW, .resolve 0 .netError]).pending =
      some { key := keyW, aborted := false } :=
  ⟨rfl, rfl, rfl, rfl, rfl⟩

/-- C1 (amended): the resolution of a cancelled (aborted) fetch never
writes to the cache, never renders (the content region's children and
visibility are untouched), and never changes the widget's hidden
state; it does, however, clear the active-fetch handle and hide the
loading indicator via the `finally` block. -/
theorem claim1_cancelled_fetch_inert (env : Env) (fid : Nat) (out : NetOutcome)
    (s : WidgetState) (pf : PendingFetch)
    (hpf : List.lookup fid s.pending = some pf) (hab : pf.aborted = true) :
    (resolveFetch env fid out s).cache = s.cache ∧
    (resolveFetch env fid out s).contentChildren = s.contentChildren ∧
    (resolveFetch env fid out s).contentHidden = s.contentHidden ∧
    (resolveFetch env fid out s).hidden = s.hidden ∧
    (resolveFetch env fid out s).activeFetch = none ∧
    (env.loadingElPresent = true → (resolveFetch env fid out s).loadingHidden = true) := by
  unfold resolveFetch
  rw [hpf]
  simp [hab]
  exact fun h => Or.inl h

theorem claim1_cancelled_fetch_inert_witness :
    List.lookup 0 (run envW (initState dsW) [.connected dsW, .connected dsW]).pending =
      some { key := keyW, aborted := true } ∧
    (resolveFetch envW 0 (.http true [cardW])
        (run envW (initState dsW) [.connected dsW, .connected dsW])).cache =
      (run envW (initState dsW) [.connected dsW, .connected dsW]).cache ∧
    (resolveFetch envW 0 (.http true [cardW])
        (run envW (initState dsW) [.connected dsW, .connected dsW])).contentChildren =
      (run envW (initState dsW) [.connected dsW, .connected dsW]).contentChildren ∧
    (resolveFetch envW 0 (.http true [cardW])
        (run envW (initState dsW) [.connected dsW, .connected dsW])).hidden =
      (run envW (initState dsW) [.connected dsW, .connected dsW]).hidden := by
  have h := claim1_cancelled_fetch_inert envW 0 (.http true [cardW])
    (run envW (initState dsW) [.connected dsW, .connected dsW]) { key := keyW, aborted := true }
    rfl rfl
  exact ⟨rfl, h.1, h.2.1, h.2.2.2.1⟩

/-- C2 (counterexample): with `data-max-products="0"` and a nonempty
filtered sequence, the widget does not hide — it renders an empty
carousel: the content region is made visible holding a carousel with
zero slides. -/
theorem claim2_counterexample :
    (renderProducts envW [pW] (initState dsZero)).hidden = false ∧
    (renderProducts envW [pW] (initState dsZero)).contentHidden = false ∧
    (renderProducts envW [pW] (initState dsZero)).contentChildren =
      [{ hasArrows := false, slides := [] }] :=
  ⟨rfl, rfl, rfl⟩

/-- C2 (amended): an empty product sequence, or a nonempty one whose
filtered sequence is empty, ends with the widget hidden and nothing
rendered; but when `maxProducts` is 0 and the filtered sequence is
nonempty, the emptiness check has already passed, so the widget
instead appends an empty carousel and makes the content region
visible with zero slides. -/
theorem claim2_empty_in_empty_out (env : Env) (products : List Product) (s : WidgetState) :
    (products = [] → renderProducts env products s = { s with hidden := true }) ∧
    (env.contentElPresent = true →
      products.filter (keepProduct (collectCartIds env.cartTableIds env.productCardIds)) = [] →
      renderProducts env products s = { s with hidden := true }) ∧
    (env.contentElPresent = true →
      s.dataset.maxProducts = some 0 →
      products.filter (keepProduct (collectCartIds env.cartTableIds env.productCardIds)) ≠ [] →
      renderProducts env products s =
        { s with
          contentChildren := s.contentChildren ++ [{ hasArrows := false, slides := [] }],
          contentHidden := false }) := by
  refine ⟨?_, ?_, ?_⟩
  · intro hp
    subst hp
    rfl
  · intro hc hf
    exact renderProducts_filteredEmpty env products s hc hf
  · intro hc h0 hf
    rw [renderProducts_render env products s hc hf, h0]
    rfl

theorem claim2_empty_in_empty_out_witness :
    envW.contentElPresent = true ∧
    (initState dsZero).dataset.maxProducts = some 0 ∧
    ([pW].filter (keepProduct (collectCartIds envW.cartTableIds envW.productCardIds)) ≠ []) ∧
    renderProducts envW [pW] (initState dsZero) =
      { initState dsZero with
        contentChildren := (initState dsZero).contentChildren ++
          [{ hasArrows := false, slides := [] }],
        contentHidden := false } :=
  ⟨rfl, rfl, by decide,
    (claim2_empty_in_empty_out envW [pW] (initState dsZero)).2.2 rfl rfl (by decide)⟩

/-- C3 (counterexample): a successful response with zero product cards
hides the widget but records nothing in the cache — the cache is still
empty for that request key, contrary to the claim that the empty
sequence is cached. -/
theorem claim3_counterexample :
    (run envW (initState dsW) [.connected dsW, .resolve 0 (.http true [])]).hidden = true ∧
    List.lookup keyW
      (run envW (initState dsW) [.connected dsW, .resolve 0 (.http true [])]).cache = none :=
  ⟨rfl, rfl⟩

/-- C3 (amended): when a non-aborted fetch resolves with an
HTTP-success status but zero product cards, the widget ends hidden and
the cache is left exactly as it was — the empty sequence is not
recorded (the `return` at the zero-cards check precedes the cache
write). -/
theorem claim3_empty_result (env : Env) (fid : Nat) (s : WidgetState) (pf : PendingFetch)
    (hpf : List.lookup fid s.pending = some pf) (hab : pf.aborted = false) :
    (resolveFetch env fid (.http true []) s).hidden = true ∧
    (resolveFetch env fid (.http true []) s).cache = s.cache := by
  unfold resolveFetch
  rw [hpf]
  simp [hab]

theorem claim3_empty_result_witness :
    List.lookup 0 (run envW (initState dsW) [.connected dsW]).pending =
      some { key := keyW, aborted := false } ∧
    (resolveFetch envW 0 (.http true []) (run envW (initState dsW) [.connected dsW])).hidden = true ∧
    (resolveFetch envW 0 (.http true []) (run envW (initState dsW) [.connected dsW])).cache =
      (run envW (initState dsW) [.connected dsW]).cache := by
  have h := claim3_empty_result envW 0 (run envW (initState dsW) [.connected dsW])
    { key := keyW, aborted := false } rfl rfl
  exact ⟨rfl, h.1, h.2⟩

/-- C5 (counterexample): rendering does not replace the content
region's prior content — a second render of the same nonempty sequence
leaves two carousels in the content region. -/
theorem claim5_counterexample :
    (renderProducts envW [pW] (initState dsW)).contentChildren.length = 1 ∧
    (renderProducts envW [pW] (renderProducts envW [pW] (initState dsW))).contentChildren.length
      = 2 :=
  ⟨rfl, rfl⟩

/-- C5 (amended): a render of a sequence whose filtered part is
nonempty appends the assembled carousel to the content region's
existing children (prior content is retained, not replaced) and makes
the content region visible; the loading indicator is hidden not by the
render step but by the fetch continuation's `finally` block, which
runs whenever a pending fetch resolves. -/
theorem claim5_render_appends (env : Env) (products : List Product) (s : WidgetState) :
    (env.contentElPresent = true →
      products.filter (keepProduct (collectCartIds env.cartTableIds env.productCardIds)) ≠ [] →
      renderProducts env products s =
        { s with
          contentChildren := s.contentChildren ++
            [assembleCarousel
              ((products.filter
                  (keepProduct (collectCartIds env.cartTableIds env.productCardIds))).take
                (effectiveMaxProducts s.dataset.maxProducts))],
          contentHidden := false }) ∧
    (∀ (fid : Nat) (out : NetOutcome) (pf : PendingFetch),
      List.lookup fid s.pending = some pf → env.loadingElPresent = true →
      (resolveFetch env fid out s).loadingHidden = true) := by
  refine ⟨?_, ?_⟩
  · intro hc hf
    exact renderProducts_render env products s hc hf
  · intro fid out pf hpf hl
    unfold resolveFetch
    rw [hpf]
    simp [hl]

theorem claim5_render_appends_witness :
    envW.contentElPresent = true ∧
    ([pW].filter (keepProduct (collectCartIds envW.cartTableIds envW.productCardIds)) ≠ []) ∧
    renderProducts envW [pW] (initState dsW) =
      { initState dsW with
        contentChildren := (initState dsW).contentChildren ++
          [assembleCarousel
            (([pW].filter
                (keepProduct (collectCartIds envW.cartTableIds envW.productCardIds))).take
              (effectiveMaxProducts (initState dsW).dataset.maxProducts))],
        contentHidden := false } :=
  ⟨rfl, by decide,
    (claim5_render_appends envW [pW] (initState dsW)).1 rfl (by decide)⟩

/-- C6 (counterexample): with `data-product-id` absent,
`connectedCallback` returns before `#loadRecommendations`, so no
request is issued but the widget is *not* marked hidden, contrary to
the claim. -/
theorem claim6_counterexample :
    (connectedCallback envW (initState dsNoId)).hidden = false ∧
    (connectedCallback envW (initState dsNoId)).requestLog = [] :=
  ⟨rfl, rfl⟩

/-- C6 (amended): with `itemId` absent at activation the widget is
inert but left unchanged — no request is issued and it is not marked
hidden; with `itemId` present but `endpointUrl` absent, no request is
issued and the widget is marked hidden immediately. -/
theorem claim6_missing_parameters (env : Env) (s : WidgetState) :
    (optTruthy s.dataset.productId = false → connectedCallback env s = s) ∧
    (s.hidden = false → optTruthy s.dataset.productId = true →
      optTruthy s.dataset.url = false →
      connectedCallback env s = { s with hidden := true }) := by
  refine ⟨?_, ?_⟩
  · intro hp
    simp [connectedCallback, hp]
  · intro hh hp hu
    simp [connectedCallback, loadStart, hh, hp, hu]

theorem claim6_missing_parameters_witness :
    optTruthy (initState dsNoId).dataset.productId = false ∧
    connectedCallback envW (initState dsNoId) = initState dsNoId ∧
    (initState dsNoUrl).hidden = false ∧
    optTruthy (initState dsNoUrl).dataset.productId = true ∧
    optTruthy (initState dsNoUrl).dataset.url = false ∧
    connectedCallback envW (initState dsNoUrl) = { initState dsNoUrl with hidden := true } :=
  ⟨rfl, (claim6_missing_parameters envW (initState dsNoId)).1 rfl, rfl, rfl, rfl,
    (claim6_missing_parameters envW (initState dsNoUrl)).2 rfl rfl rfl⟩

/-- C4 (counterexample): two activations with identical
WidgetParameters fired in quick succession — the second starting
before the first's fetch resolves — issue two network requests for the
same request key, because the cache is only written when a fetch
resolves successfully. -/
theorem claim4_counterexample :
    countRequests keyW (run envW (initState dsW) [.connected dsW, .connected dsW]) = 2 :=
  rfl

/-- C4 (amended): when the second activation starts after the first's
fetch has resolved, exactly one network request is issued for the key,
whatever the first fetch's outcome; and when that fetch succeeded with
a nonempty parsed sequence whose filtered part is nonempty, the second
activation is served from the cache and renders the same
recommended-product sequence as the first. -/
theorem claim4_cache_idempotence (ds : Dataset) (a b : List (Option String))
    (hp : optTruthy ds.productId = true) (hu : optTruthy ds.url = true) :
    (∀ out : NetOutcome,
      countRequests (fetchUrlOf ds)
        (run ⟨true, true, a, b⟩ (initState ds)
          [.connected ds, .resolve 0 out, .connected ds]) = 1) ∧
    (∀ (c : Card) (cs : List Card),
      ((c :: cs).map cardToProduct).filter (keepProduct (collectCartIds a b)) ≠ [] →
      List.lookup (fetchUrlOf ds)
        (run ⟨true, true, a, b⟩ (initState ds)
          [.connected ds, .resolve 0 (.http true (c :: cs)), .connected ds]).cache =
        some ((c :: cs).map cardToProduct) ∧
      (run ⟨true, true, a, b⟩ (initState ds)
          [.connected ds, .resolve 0 (.http true (c :: cs)), .connected ds]).contentChildren =
        [assembleCarousel ((((c :: cs).map cardToProduct).filter
            (keepProduct (collectCartIds a b))).take (effectiveMaxProducts ds.maxProducts)),
         assembleCarousel ((((c :: cs).map cardToProduct).filter
            (keepProduct (collectCartIds a b))).take (effectiveMaxProducts ds.maxProducts))]) :=
  ⟨fun out => cacheIdem_requests_aux ds a b hp hu out,
   fun c cs hf => cacheIdem_render_aux ds a b hp hu c cs hf⟩

theorem claim4_cache_idempotence_witness :
    optTruthy dsW.productId = true ∧
    optTruthy dsW.url = true ∧
    (([cardW].map cardToProduct).filter (keepProduct (collectCartIds [] [])) ≠ []) ∧
    countRequests (fetchUrlOf dsW)
      (run ⟨true, true, [], []⟩ (initState dsW)
        [.connected dsW, .resolve 0 (.http true [cardW]), .connected dsW]) = 1 ∧
    List.lookup (fetchUrlOf dsW)
      (run ⟨true, true, [], []⟩ (initState dsW)
        [.connected dsW, .resolve 0 (.http true [cardW]), .connected dsW]).cache =
      some ([cardW].map cardToProduct) := by
  have h := claim4_cache_idempotence dsW [] [] rfl rfl
  exact ⟨rfl, rfl, by decide, h.1 (.http true [cardW]), (h.2 cardW [] (by decide)).1⟩
